import Mathlib

set_option autoImplicit false

namespace DynaBridge

/-! Shallow embedding of the DynaBridge repository (DynaBridge/attribute.py,
schema.py, table.py, models.py, utills.py).  Python runtime values are
modelled by `PyVal`, Python dicts holding records by association lists,
raised exceptions by `Except DynErr`, and the ambient clock / entropy used
for dynamically generated defaults by an explicit `Clock` record. -/

/-- A Python runtime value, covering the types named in
`DynamoAttribute.types` plus `None`.  Python floats are modelled as exact
rationals. -/
inductive PyVal where
  | str (s : String)
  | int (n : Int)
  | float (q : ℚ)
  | bool (b : Bool)
  | list (vs : List PyVal)
  | dict (entries : List (String × PyVal))
  | set (vs : List PyVal)
  | tuple (vs : List PyVal)
  | none

/-- A record (Python dict with string keys) as an association list; keys are
unique by construction, insertion order is preserved as in CPython dicts. -/
abbrev Record := List (String × PyVal)

/-- Dict lookup: `item[k]` / `k in item` support. -/
def getAttr : Record → String → Option PyVal
  | [], _ => Option.none
  | (k', v) :: rest, k => if k' = k then some v else getAttr rest k

/-- Dict assignment `item[k] = v`: replaces the value of an existing key in
place, otherwise appends the new key at the end (CPython dict semantics). -/
def setItem : Record → String → PyVal → Record
  | [], k, v => [(k, v)]
  | (k', v') :: rest, k, v =>
      if k' = k then (k, v) :: rest else (k', v') :: setItem rest k v

/-- Modelled from the spec: the module `DynaBridge.exceptions` is imported by
every source file but is not among the sources.  Per the spec's error
taxonomy (§7), `DynamoTypeError` is TypeError-class, `DynamoValueError` is
ValueError-class, `DynamoAttributeError` is AttributeError-class; plain
`Exception` (used by `models.py`) and engine errors are carried as
`exception`. -/
inductive DynErr where
  | typeError (msg : String)
  | valueError (msg : String)
  | attributeError (msg : String)
  | exception (msg : String)
deriving DecidableEq

/-- The single-quote character used by the Python error f-strings. -/
def sq : String := String.singleton (Char.ofNat 39)

/-- The ambient clock and entropy source.  `utcNow` is
`datetime.utcnow().strftime("%Y-%m-%d %H:%M:%S")` (read by
`TimeUtills.get_current_utc_datetime`), `localNow` is
`datetime.datetime.now().strftime("%Y-%m-%d %H:%M:%S")` (read by
`DynamoAttribute.dynamic_defaults["datetime"]`); the two differ whenever the
process timezone is not UTC.  `uuid1`/`uuid4` are the strings of freshly
generated `uuid.uuid1()` / `uuid.uuid4()` values. -/
structure Clock where
  utcNow : String
  localNow : String
  uuid1 : String
  uuid4 : String
deriving DecidableEq

/-- utills.py, `TimeUtills.get_current_utc_datetime`. -/
def TimeUtills.get_current_utc_datetime (clk : Clock) : String :=
  clk.utcNow

namespace DynamoAttribute

/-- The Python classes that appear as values of `DynamoAttribute.types`. -/
inductive PyType where
  | pstr
  | pint
  | pfloat
  | pbool
  | plist
  | pdict
  | pset
  | ptuple
deriving DecidableEq

/-- The `DynamoAttribute.types` class dict: type tag to Python class
(`"datetime"` and `"uuid"` both map to `str`). -/
def types : String → Option PyType
  | "str" => some .pstr
  | "int" => some .pint
  | "float" => some .pfloat
  | "bool" => some .pbool
  | "list" => some .plist
  | "dict" => some .pdict
  | "set" => some .pset
  | "tuple" => some .ptuple
  | "datetime" => some .pstr
  | "uuid" => some .pstr
  | _ => Option.none

/-- The keys of the `DynamoAttribute.defaults` class dict, in insertion
order (used by `_verify_type`'s membership check and error message). -/
def defaultKeys : List String :=
  ["str", "int", "float", "bool", "list", "dict", "set", "tuple",
   "datetime", "uuid"]

/-- The `DynamoAttribute.defaults` class dict (static zero-values;
`"datetime"` and `"uuid"` map to Python `None`). -/
def defaults : String → Option PyVal
  | "str" => some (.str "")
  | "int" => some (.int 0)
  | "float" => some (.float 0)
  | "bool" => some (.bool false)
  | "list" => some (.list [])
  | "dict" => some (.dict [])
  | "set" => some (.set [])
  | "tuple" => some (.tuple [])
  | "datetime" => some .none
  | "uuid" => some .none
  | _ => Option.none

/-- The `DynamoAttribute.dynamic_defaults` class dict: tag to the string the
corresponding lambda produces from the ambient clock/entropy.
`"datetime"` calls `datetime.datetime.now()` (local time, not UTC). -/
def dynamic_defaults (clk : Clock) : String → Option String
  | "datetime" => some clk.localNow
  | "uuid" => some clk.uuid4
  | "uuid1" => some clk.uuid1
  | "uuid4" => some clk.uuid4
  | _ => Option.none

/-- Python `isinstance(v, t)` for the classes in `types`; a Python `bool` is
also an instance of `int` (bool subclasses int). -/
def isinstance : PyVal → PyType → Bool
  | .str _, .pstr => true
  | .int _, .pint => true
  | .bool _, .pint => true
  | .bool _, .pbool => true
  | .float _, .pfloat => true
  | .list _, .plist => true
  | .dict _, .pdict => true
  | .set _, .pset => true
  | .tuple _, .ptuple => true
  | _, _ => false

/-- Python `str(v)` as interpolated into the error f-strings.  Container and
float renderings are abbreviated; no theorem below observes them. -/
def pyStr : PyVal → String
  | .str s => s
  | .int n => toString n
  | .bool b => if b then "True" else "False"
  | .float q => toString q
  | .list _ => "list"
  | .dict _ => "dict"
  | .set _ => "set"
  | .tuple _ => "tuple"
  | .none => "None"

/-- The state of a `DynamoAttribute` instance: the six constructor fields
plus the private `__value` slot (initialised to `None`). -/
structure AttrState where
  name : String
  type : String
  default : PyVal
  required : Bool
  immutable : Bool
  validator : Option (PyVal → Bool)
  value : PyVal

/-- attribute.py `_verify_type`: reject tags outside `defaults`. -/
def verify_type (t : String) : Except DynErr Unit :=
  if (defaults t).isSome then .ok ()
  else .error (.typeError ("Attribute type " ++ t ++
    " is not supported. Supported types are " ++
    String.intercalate ", " defaultKeys))

/-- attribute.py `_initialize_defaults`, as a function of the current
`__attribute_default` and `__attribute_type`: when the default is `None`,
dynamic tags generate a value from the clock, static tags take the entry of
`defaults` (total via `getD`; `_verify_type` has already ruled out unknown
tags when this runs). -/
def initialize_defaults (clk : Clock) (ty : String) : PyVal → PyVal
  | .none =>
      match dynamic_defaults clk ty with
      | some s => .str s
      | Option.none => (defaults ty).getD .none
  | d => d

/-- attribute.py `__init__`: verify the type tag, resolve or type-check the
default (`_verify_defaults`), store the flags and validator, and initialise
`__value` to `None`.  The clock is the construction-time environment read by
the dynamic-default lambdas. -/
def init (name ty : String) (attribute_default : PyVal)
    (attribute_required attribute_immutable : Bool)
    (attribute_validator : Option (PyVal → Bool)) (clk : Clock) :
    Except DynErr AttrState := do
  verify_type ty
  let d ←
    match attribute_default with
    | .none => pure (initialize_defaults clk ty .none)
    | d =>
        match types ty with
        | some pt =>
            if isinstance d pt then pure d
            else .error (.typeError ("Default value " ++ pyStr d ++
              " is not of type " ++ ty))
        | Option.none => .error (.exception ("KeyError: " ++ ty))
  pure (AttrState.mk name ty d attribute_required attribute_immutable
    attribute_validator .none)

/-- attribute.py `get_attribute_default`. -/
def get_attribute_default (a : AttrState) : PyVal :=
  a.default

/-- attribute.py `set_attribute_value`: raises `DynamoValueError` whenever
the descriptor is immutable, then (for non-`None` values only) checks the
declared type and the validator, and finally stores the value in
`__value`. -/
def set_attribute_value (a : AttrState) (v : PyVal) : Except DynErr AttrState :=
  if a.immutable then
    .error (.valueError ("Attribute " ++ sq ++ a.name ++ sq ++
      " is immutable and cannot be modified."))
  else
    match v with
    | .none =>
        .ok (AttrState.mk a.name a.type a.default a.required a.immutable
          a.validator .none)
    | v =>
        match types a.type with
        | Option.none => .error (.exception ("KeyError: " ++ a.type))
        | some pt =>
            if isinstance v pt then
              match a.validator with
              | some f =>
                  if f v then
                    .ok (AttrState.mk a.name a.type a.default a.required
                      a.immutable a.validator v)
                  else
                    .error (.valueError ("Value " ++ sq ++ pyStr v ++ sq ++
                      " failed validation."))
              | Option.none =>
                  .ok (AttrState.mk a.name a.type a.default a.required
                    a.immutable a.validator v)
            else
              .error (.typeError ("Value " ++ sq ++ pyStr v ++ sq ++
                " is not of type " ++ sq ++ a.type ++ sq ++ "."))

end DynamoAttribute

namespace DynamoSchema

open DynamoAttribute

/-- The type-match test of schema.py `validate`:
`isinstance(item_value, DynamoAttribute.types[expected_type])`.  The
`Option.none` branch is unreachable for schemas built through the API, since
every schema attribute is a `DynamoAttribute` whose construction verified the
tag (Python would raise `KeyError` there). -/
def typeOk (a : AttrState) (v : PyVal) : Bool :=
  match types a.type with
  | some pt => isinstance v pt
  | Option.none => false

/-- schema.py `validate`, accumulation phase: one pass over the attribute
list, collecting (in iteration order) the names of absent attributes, of
present attributes whose value fails the `isinstance` check, and of present
attributes rejected by their validator.  The `required` flag is never
consulted. -/
def validateLists : List AttrState → Record →
    List String × List String × List String
  | [], _ => ([], [], [])
  | a :: rest, item =>
      let acc := validateLists rest item
      match getAttr item a.name with
      | Option.none => (a.name :: acc.1, acc.2.1, acc.2.2)
      | some v =>
          let ts := if typeOk a v then acc.2.1 else a.name :: acc.2.1
          let vs :=
            match a.validator with
            | some f => if f v then acc.2.2 else a.name :: acc.2.2
            | Option.none => acc.2.2
          (acc.1, ts, vs)

/-- schema.py `validate`, message phase: the `error_messages` list built from
the three non-empty accumulators. -/
def error_messages (missing mismatch failed : List String) : List String :=
  (if missing.isEmpty then [] else
    ["Missing required attributes: " ++ String.intercalate ", " missing]) ++
  (if mismatch.isEmpty then [] else
    ["Type mismatch for attributes: " ++ String.intercalate ", " mismatch]) ++
  (if failed.isEmpty then [] else
    ["Validation failed for attributes: " ++ String.intercalate ", " failed])

/-- schema.py `validate`: collect all violations, raise one
`DynamoValueError` joining the category messages with newlines when any
violation exists, otherwise return `True`. -/
def validate (attrs : List AttrState) (item : Record) : Except DynErr Bool :=
  let acc := validateLists attrs item
  let msgs := error_messages acc.1 acc.2.1 acc.2.2
  if msgs.isEmpty then .ok true
  else .error (.valueError (String.intercalate "\n" msgs))

/-- schema.py `fill_defaults`: iterate the attributes in order and, for each
attribute absent from the item, insert `get_attribute_default`; mutates and
returns the item. -/
def fill_defaults : List AttrState → Record → Record
  | [], item => item
  | a :: rest, item =>
      fill_defaults rest
        (if (getAttr item a.name).isSome then item
         else setItem item a.name (get_attribute_default a))

/-- Specification-side restatement: names of the attributes absent from the
item, in schema order. -/
def missingNames (attrs : List AttrState) (item : Record) : List String :=
  (attrs.filter (fun a => (getAttr item a.name).isNone)).map AttrState.name

/-- Specification-side restatement: names of the attributes present in the
item whose value fails the declared-type check, in schema order. -/
def mismatchNames (attrs : List AttrState) (item : Record) : List String :=
  (attrs.filter (fun a =>
    match getAttr item a.name with
    | some v => !typeOk a v
    | Option.none => false)).map AttrState.name

/-- Specification-side restatement: names of the attributes present in the
item whose validator rejects the value, in schema order. -/
def failedNames (attrs : List AttrState) (item : Record) : List String :=
  (attrs.filter (fun a =>
    match getAttr item a.name, a.validator with
    | some v, some f => !f v
    | _, _ => false)).map AttrState.name

end DynamoSchema

/-- The state of a `DynamoTable` relevant to save/update semantics: key
names, the version attribute (constructor default `"lockVersion"`), the
transactional flag and the last-update attribute (`"last_update"` when
`track_last_update_time`, else disabled). -/
structure DynamoTable where
  table_name : String
  primary_key : String
  sort_key : Option String
  version_attribute : String
  is_transactional : Bool
  last_update_attribute : Option String

namespace DynamoTable

open DynamoAttribute

/-- Python `x + 1` on a stored version value: defined on numbers (a Python
`bool` participates as `int`), a `TypeError` otherwise (message
abbreviated). -/
def pyAddOne : PyVal → Except DynErr PyVal
  | .int n => .ok (.int (n + 1))
  | .bool b => .ok (.int (if b then 2 else 1))
  | .float q => .ok (.float (q + 1))
  | v => .error (.typeError ("unsupported operand for +: " ++ pyStr v))

/-- table.py `save`, version-stamping step: on a transactional table, a
record without the version attribute gets version `0`, a record with it gets
its value incremented by one; non-transactional tables are untouched. -/
def stamp_version (tbl : DynamoTable) (item : Record) : Except DynErr Record :=
  if tbl.is_transactional then
    match getAttr item tbl.version_attribute with
    | Option.none => .ok (setItem item tbl.version_attribute (.int 0))
    | some v => do
        let v1 ← pyAddOne v
        .ok (setItem item tbl.version_attribute v1)
  else .ok item

/-- What a call to `save` leaves behind: the final state of the caller's
(in-place mutated) dict, whether `put_item` was issued to the engine, and
the returned record or raised error. -/
structure SaveOutcome where
  item : Record
  putCalled : Bool
  result : Except DynErr Record

/-- table.py `save`: stamp the version (transactional tables), stamp the
last-update time from the UTC clock, fill defaults and validate when a
schema is registered (a validation error aborts before any engine call,
re-raised by `_handle_error`), then issue the put; a 200 status returns the
stamped item, anything else raises.  `putStatus` is the engine's HTTP status
for the put. -/
def save (tbl : DynamoTable) (schema : Option (List AttrState)) (clk : Clock)
    (putStatus : Nat) (item : Record) : SaveOutcome :=
  match stamp_version tbl item with
  | .error e => SaveOutcome.mk item false (.error e)
  | .ok item1 =>
      let item2 :=
        match tbl.last_update_attribute with
        | some la =>
            setItem item1 la (.str (TimeUtills.get_current_utc_datetime clk))
        | Option.none => item1
      match schema with
      | some attrs =>
          let item3 := DynamoSchema.fill_defaults attrs item2
          match DynamoSchema.validate attrs item3 with
          | .error e => SaveOutcome.mk item3 false (.error e)
          | .ok _ =>
              if putStatus = 200 then SaveOutcome.mk item3 true (.ok item3)
              else SaveOutcome.mk item3 true
                (.error (.exception "create: non-200 put response"))
      | Option.none =>
          if putStatus = 200 then SaveOutcome.mk item2 true (.ok item2)
          else SaveOutcome.mk item2 true
            (.error (.exception "create: non-200 put response"))

/-- table.py `update_version`: the engine applies the update expression
`set #version = :version` to the stored record identified by the key (here
`stored`), and with `ReturnValues="UPDATED_NEW"` reports exactly the updated
attribute; `_handle_response` passes those attributes through on a 200
status and yields `None` otherwise.  Returns (stored record after the
engine applies the expression, the Python return value). -/
def update_version (tbl : DynamoTable) (stored : Record) (new_version : PyVal)
    (status : Nat) : Record × Option Record :=
  let storedAfter := setItem stored tbl.version_attribute new_version
  let attrs : Record := [(tbl.version_attribute, new_version)]
  (storedAfter, if status = 200 then some attrs else Option.none)

/-- `n` successive calls of `save`, each applied to the record returned by
the previous one (the round trip a caller performs when re-saving the
returned item); `0` saves yield the starting record, an error stops the
chain. -/
def savesFrom (tbl : DynamoTable) (schema : Option (List DynamoAttribute.AttrState))
    (clk : Clock) (putStatus : Nat) (item : Record) : Nat → Except DynErr Record
  | 0 => .ok item
  | Nat.succ n =>
      match savesFrom tbl schema clk putStatus item n with
      | .ok r => (save tbl schema clk putStatus r).result
      | .error e => .error e

end DynamoTable

namespace DynamoModel

/-- One observable step of `transactional_lock`'s loop body: a backoff sleep
of the given duration (in seconds, exact rationals for Python floats), or an
invocation of the wrapped mutation on iteration `i`. -/
inductive LockEvent where
  | sleep (t : ℚ)
  | invoke (i : Nat)
deriving DecidableEq

/-- models.py `transactional_lock`, the `while retries < max_retries` loop,
parameterised by the remaining iteration budget and the current `retries`
counter (the budget is `max_retries - retries`, so structural recursion on
it mirrors the loop exactly).  `read i` is the version re-read
`get(key).get(version_attribute, 0)` on the iteration with counter `i`;
`mutate i` is the wrapped `func` call there (`.error` = the call raised,
caught by the `except` which increments the counter).  Returns the trace of
sleeps and invocations together with the result: `.ok` on a successful
mutation, `.error "Max retry attempts exceeded"` when the budget is
exhausted. -/
def lockAux {α : Type} (read : Nat → Int) (mutate : Nat → Except String α)
    (base_sleep max_sleep : ℚ) (v0 : Int) :
    Nat → Nat → List LockEvent × Except String α
  | 0, _ => ([], .error "Max retry attempts exceeded")
  | Nat.succ remaining, retries =>
      if read retries ≠ v0 then
        let rest := lockAux read mutate base_sleep max_sleep v0 remaining
          (retries + 1)
        (LockEvent.sleep (min (base_sleep * 2 ^ retries) max_sleep) ::
          rest.1, rest.2)
      else
        match mutate retries with
        | .ok a => ([LockEvent.invoke retries], .ok a)
        | .error _ =>
            let rest := lockAux read mutate base_sleep max_sleep v0 remaining
              (retries + 1)
            (LockEvent.invoke retries :: rest.1, rest.2)

/-- models.py `transactional_lock`'s wrapper: `v0` is the version read once
before the loop (`original_version`); the loop then starts with
`retries = 0` and budget `max_retries`. -/
def transactional_lock {α : Type} (v0 : Int) (read : Nat → Int)
    (mutate : Nat → Except String α) (max_retries : Nat)
    (base_sleep max_sleep : ℚ) : List LockEvent × Except String α :=
  lockAux read mutate base_sleep max_sleep v0 max_retries 0

/-- Default `max_retries` of `transactional_lock`. -/
def max_retries_default : Nat := 100

/-- Default `base_sleep` of `transactional_lock` (0.1 seconds). -/
def base_sleep_default : ℚ := 1 / 10

/-- Default `max_sleep` of `transactional_lock` (2.0 seconds). -/
def max_sleep_default : ℚ := 2

end DynamoModel

/-! Helper lemmas shared by the claim theorems. -/

theorem getAttr_setItem_self (r : Record) (k : String) (v : PyVal) :
    getAttr (setItem r k v) k = some v := by
  induction r with
  | nil => simp [setItem, getAttr]
  | cons p rest ih =>
      rcases p with ⟨k0, v0⟩
      by_cases h0 : k0 = k
      · subst h0
        simp [setItem, getAttr]
      · simp [setItem, h0, getAttr, ih]

theorem getAttr_setItem_ne (r : Record) (k k' : String) (v : PyVal)
    (h : k' ≠ k) : getAttr (setItem r k v) k' = getAttr r k' := by
  induction r with
  | nil => simp [setItem, getAttr, Ne.symm h]
  | cons p rest ih =>
      rcases p with ⟨k0, v0⟩
      by_cases h0 : k0 = k
      · subst h0
        simp [setItem, getAttr, Ne.symm h]
      · simp [setItem, h0, getAttr, ih]

theorem getAttr_fill_defaults_of_isSome (attrs : List DynamoAttribute.AttrState)
    (item : Record) (k : String) (h : (getAttr item k).isSome) :
    getAttr (DynamoSchema.fill_defaults attrs item) k = getAttr item k := by
  induction attrs generalizing item with
  | nil => rfl
  | cons a rest ih =>
      by_cases hp : (getAttr item a.name).isSome
      · simp only [DynamoSchema.fill_defaults]
        rw [if_pos hp]
        exact ih item h
      · have hk : a.name ≠ k := by
          intro e
          rw [e] at hp
          exact hp h
        have hset : getAttr (setItem item a.name
            (DynamoAttribute.get_attribute_default a)) k = getAttr item k :=
          getAttr_setItem_ne item a.name k _ (Ne.symm hk)
        simp only [DynamoSchema.fill_defaults]
        rw [if_neg hp]
        rw [ih _ (by rw [hset]; exact h), hset]

theorem getAttr_fill_defaults_isSome_of_mem
    (attrs : List DynamoAttribute.AttrState) (item : Record)
    (a : DynamoAttribute.AttrState) (ha : a ∈ attrs) :
    (getAttr (DynamoSchema.fill_defaults attrs item) a.name).isSome := by
  induction attrs generalizing item with
  | nil => cases ha
  | cons b rest ih =>
      rcases List.mem_cons.mp ha with h | h
      · subst h
        by_cases hp : (getAttr item a.name).isSome
        · simp only [DynamoSchema.fill_defaults]
          rw [if_pos hp]
          rw [getAttr_fill_defaults_of_isSome rest item a.name hp]
          exact hp
        · simp only [DynamoSchema.fill_defaults]
          rw [if_neg hp]
          have hself : (getAttr (setItem item a.name
              (DynamoAttribute.get_attribute_default a)) a.name).isSome := by
            rw [getAttr_setItem_self]
            rfl
          rw [getAttr_fill_defaults_of_isSome rest _ a.name hself]
          exact hself
      · by_cases hp : (getAttr item b.name).isSome
        · simp only [DynamoSchema.fill_defaults]
          rw [if_pos hp]
          exact ih _ h
        · simp only [DynamoSchema.fill_defaults]
          rw [if_neg hp]
          exact ih _ h

theorem validateLists_eq (attrs : List DynamoAttribute.AttrState)
    (item : Record) :
    DynamoSchema.validateLists attrs item =
      (DynamoSchema.missingNames attrs item,
       DynamoSchema.mismatchNames attrs item,
       DynamoSchema.failedNames attrs item) := by
  induction attrs with
  | nil => rfl
  | cons a rest ih =>
      simp only [DynamoSchema.validateLists, ih, DynamoSchema.missingNames,
        DynamoSchema.mismatchNames, DynamoSchema.failedNames, List.filter_cons]
      cases hg : getAttr item a.name with
      | none => simp [hg]
      | some v =>
          cases hv : a.validator with
          | none => cases ht : DynamoSchema.typeOk a v <;> simp [hg, hv, ht]
          | some f =>
              cases ht : DynamoSchema.typeOk a v <;>
                cases hf : f v <;> simp [hg, hv, ht, hf]

theorem save_result_version_zero (tbl : DynamoTable) (clk : Clock)
    (r : Record) (htr : tbl.is_transactional = true)
    (hla : ∀ la, tbl.last_update_attribute = some la →
      la ≠ tbl.version_attribute)
    (hv : getAttr r tbl.version_attribute = Option.none) :
    ∃ r', (DynamoTable.save tbl Option.none clk 200 r).result = .ok r' ∧
      getAttr r' tbl.version_attribute = some (.int 0) := by
  have hst : DynamoTable.stamp_version tbl r =
      .ok (setItem r tbl.version_attribute (.int 0)) := by
    simp [DynamoTable.stamp_version, htr, hv]
  cases hlu : tbl.last_update_attribute with
  | none =>
      refine ⟨setItem r tbl.version_attribute (.int 0), ?_, ?_⟩
      · simp [DynamoTable.save, hst, hlu]
      · exact getAttr_setItem_self r tbl.version_attribute (.int 0)
  | some la =>
      refine ⟨setItem (setItem r tbl.version_attribute (.int 0)) la
        (.str clk.utcNow), ?_, ?_⟩
      · simp [DynamoTable.save, hst, hlu, TimeUtills.get_current_utc_datetime]
      · rw [getAttr_setItem_ne _ la _ _ (Ne.symm (hla la hlu))]
        exact getAttr_setItem_self r tbl.version_attribute (.int 0)

theorem save_result_version_succ (tbl : DynamoTable) (clk : Clock)
    (r : Record) (k : Int) (htr : tbl.is_transactional = true)
    (hla : ∀ la, tbl.last_update_attribute = some la →
      la ≠ tbl.version_attribute)
    (hv : getAttr r tbl.version_attribute = some (.int k)) :
    ∃ r', (DynamoTable.save tbl Option.none clk 200 r).result = .ok r' ∧
      getAttr r' tbl.version_attribute = some (.int (k + 1)) := by
  have hst : DynamoTable.stamp_version tbl r =
      .ok (setItem r tbl.version_attribute (.int (k + 1))) := by
    simp only [DynamoTable.stamp_version, htr, hv, if_true]
    rfl
  cases hlu : tbl.last_update_attribute with
  | none =>
      refine ⟨setItem r tbl.version_attribute (.int (k + 1)), ?_, ?_⟩
      · simp [DynamoTable.save, hst, hlu]
      · exact getAttr_setItem_self r tbl.version_attribute (.int (k + 1))
  | some la =>
      refine ⟨setItem (setItem r tbl.version_attribute (.int (k + 1))) la
        (.str clk.utcNow), ?_, ?_⟩
      · simp [DynamoTable.save, hst, hlu, TimeUtills.get_current_utc_datetime]
      · rw [getAttr_setItem_ne _ la _ _ (Ne.symm (hla la hlu))]
        exact getAttr_setItem_self r tbl.version_attribute (.int (k + 1))

theorem error_messages_nil_iff (m t v : List String) :
    DynamoSchema.error_messages m t v = [] ↔ m = [] ∧ t = [] ∧ v = [] := by
  cases m <;> cases t <;> cases v <;> simp [DynamoSchema.error_messages]

theorem lockAux_trace_length_le {α : Type} (read : Nat → Int)
    (mutate : Nat → Except String α) (b m : ℚ) (v0 : Int) (n r : Nat) :
    (DynamoModel.lockAux read mutate b m v0 n r).1.length ≤ n := by
  induction n generalizing r with
  | zero => simp [DynamoModel.lockAux]
  | succ n ih =>
      by_cases h : read r = v0
      · simp only [DynamoModel.lockAux, h, ne_eq, not_true_eq_false, if_false]
        cases hm : mutate r with
        | ok a => simp
        | error e => simpa using Nat.succ_le_succ (ih (r + 1))
      · simp only [DynamoModel.lockAux, h, ne_eq, not_false_eq_true, if_true]
        simpa using Nat.succ_le_succ (ih (r + 1))

theorem lockAux_error_of_never_eq {α : Type} (read : Nat → Int)
    (mutate : Nat → Except String α) (b m : ℚ) (v0 : Int)
    (h : ∀ i, read i ≠ v0) (n r : Nat) :
    (DynamoModel.lockAux read mutate b m v0 n r).2 =
      .error "Max retry attempts exceeded" := by
  induction n generalizing r with
  | zero => rfl
  | succ n ih =>
      simp only [DynamoModel.lockAux, h r, ne_eq, not_false_eq_true, if_true]
      exact ih (r + 1)

theorem lockAux_invoke_mem {α : Type} (read : Nat → Int)
    (mutate : Nat → Except String α) (b m : ℚ) (v0 : Int) (n r i : Nat)
    (hmem : DynamoModel.LockEvent.invoke i ∈
      (DynamoModel.lockAux read mutate b m v0 n r).1) :
    read i = v0 := by
  induction n generalizing r with
  | zero => simp [DynamoModel.lockAux] at hmem
  | succ n ih =>
      by_cases h : read r = v0
      · simp only [DynamoModel.lockAux, h, ne_eq, not_true_eq_false,
          if_false] at hmem
        cases hm : mutate r with
        | ok a =>
            rw [hm] at hmem
            simp at hmem
            rw [hmem]
            exact h
        | error e =>
            rw [hm] at hmem
            simp at hmem
            rcases hmem with he | hmem
            · rw [he]
              exact h
            · exact ih (r + 1) hmem
      · simp only [DynamoModel.lockAux, h, ne_eq, not_false_eq_true,
          if_true, List.mem_cons] at hmem
        rcases hmem with he | hmem
        · cases he
        · exact ih (r + 1) hmem

/-! Claim theorems. -/

/-- C1: In `transactional_lock`'s retry loop, an iteration whose re-read
version differs from the version `v0` read before the loop sleeps for
`min(base_sleep * 2^retries, max_sleep)`, increments the retry counter and
restarts the loop without invoking the wrapped mutation; the mutation is
invoked only on iterations whose re-read version equals `v0`, and a
successful invocation's result is returned immediately. -/
theorem transactional_lock_version_check {α : Type} (read : Nat → Int)
    (mutate : Nat → Except String α) (b m : ℚ) (v0 : Int) (n r : Nat) :
    (read r ≠ v0 →
      DynamoModel.lockAux read mutate b m v0 (n + 1) r =
        (DynamoModel.LockEvent.sleep (min (b * 2 ^ r) m) ::
            (DynamoModel.lockAux read mutate b m v0 n (r + 1)).1,
         (DynamoModel.lockAux read mutate b m v0 n (r + 1)).2)) ∧
    (∀ i, DynamoModel.LockEvent.invoke i ∈
        (DynamoModel.lockAux read mutate b m v0 n r).1 → read i = v0) ∧
    (∀ a, read r = v0 → mutate r = .ok a →
      DynamoModel.lockAux read mutate b m v0 (n + 1) r =
        ([DynamoModel.LockEvent.invoke r], .ok a)) := by
  refine ⟨?_, ?_, ?_⟩
  · intro h
    simp [DynamoModel.lockAux, h]
  · intro i hi
    exact lockAux_invoke_mem read mutate b m v0 n r i hi
  · intro a h hm
    simp [DynamoModel.lockAux, h, hm]

/-- Concrete version trace for the C1 witness: one conflicting re-read on
iteration 0, matching from iteration 1 on. -/
def c1read : Nat → Int := fun i => if i = 0 then 1 else 0

/-- Concrete mutation for the C1 witness: always succeeds with 42. -/
def c1mut : Nat → Except String Int := fun _ => .ok 42

theorem transactional_lock_version_check_witness :
    DynamoModel.lockAux c1read c1mut (1 / 10) 2 0 2 0 =
      (DynamoModel.LockEvent.sleep (min ((1 / 10 : ℚ) * 2 ^ 0) 2) ::
         (DynamoModel.lockAux c1read c1mut (1 / 10) 2 0 1 1).1,
       (DynamoModel.lockAux c1read c1mut (1 / 10) 2 0 1 1).2) ∧
    c1read 1 = 0 ∧
    DynamoModel.lockAux c1read c1mut (1 / 10) 2 0 2 1 =
      ([DynamoModel.LockEvent.invoke 1], Except.ok 42) := by
  refine ⟨?_, ?_, ?_⟩
  · exact (transactional_lock_version_check c1read c1mut (1 / 10) 2 0 1 0).1
      (by decide)
  · exact (transactional_lock_version_check c1read c1mut (1 / 10) 2 0 2 0).2.1
      1 (by decide)
  · exact (transactional_lock_version_check c1read c1mut (1 / 10) 2 0 1 1).2.2
      42 (by decide) rfl

/-- C2: the retry loop runs at most `max_retries` iterations (the trace has
at most one event per iteration), and when the version never matches the
original one the wrapper ends with the terminal max-retries error instead of
looping. -/
theorem transactional_lock_retry_bound {α : Type} (read : Nat → Int)
    (mutate : Nat → Except String α) (b m : ℚ) (v0 : Int)
    (max_retries : Nat) :
    (DynamoModel.transactional_lock v0 read mutate max_retries b m).1.length ≤
        max_retries ∧
    ((∀ i, read i ≠ v0) →
      (DynamoModel.transactional_lock v0 read mutate max_retries b m).2 =
        .error "Max retry attempts exceeded") := by
  constructor
  · exact lockAux_trace_length_le read mutate b m v0 max_retries 0
  · intro h
    exact lockAux_error_of_never_eq read mutate b m v0 h max_retries 0

theorem transactional_lock_retry_bound_witness :
    (DynamoModel.transactional_lock 0 (fun _ => 1)
        (fun _ => Except.ok (0 : Int)) 1 (1 / 10) 2).1.length ≤ 1 ∧
    (DynamoModel.transactional_lock 0 (fun _ => 1)
        (fun _ => Except.ok (0 : Int)) 1 (1 / 10) 2).2 =
      .error "Max retry attempts exceeded" := by
  refine ⟨(transactional_lock_retry_bound _ _ _ _ _ _).1, ?_⟩
  exact (transactional_lock_retry_bound (fun _ => 1)
    (fun _ => Except.ok (0 : Int)) (1 / 10) 2 0 1).2 (fun i => by decide)

/-- A concrete construction-time clock, with the session at UTC+05:30 so
that the local-time and UTC renderings differ. -/
def clk0 : Clock :=
  Clock.mk "2024-01-01 00:00:00" "2024-01-01 05:30:00" "uuid-one" "uuid-four"

/-- C5 counterexample: a freshly constructed immutable descriptor — its
`__value` still `None`, never set — already rejects the very first
`set_attribute_value` call with the immutability `DynamoValueError`,
refuting that the first call on a not-yet-initialised descriptor
succeeds. -/
theorem set_attribute_value_immutable_first_call_fails :
    DynamoAttribute.init "A" "str" .none false true Option.none clk0 =
      .ok (DynamoAttribute.AttrState.mk "A" "str" (.str "") false true
        Option.none .none) ∧
    DynamoAttribute.set_attribute_value
        (DynamoAttribute.AttrState.mk "A" "str" (.str "") false true
          Option.none .none) (.str "x") =
      .error (.valueError ("Attribute " ++ sq ++ "A" ++ sq ++
        " is immutable and cannot be modified.")) :=
  ⟨rfl, rfl⟩

/-- C5 (amended): every `set_attribute_value` call on an immutable
descriptor fails with the immutability `DynamoValueError`, whether or not a
value was ever stored — the initialised-once concession does not exist in
the code. -/
theorem set_attribute_value_immutable_always_fails
    (a : DynamoAttribute.AttrState) (h : a.immutable = true) (v : PyVal) :
    DynamoAttribute.set_attribute_value a v =
      .error (.valueError ("Attribute " ++ sq ++ a.name ++ sq ++
        " is immutable and cannot be modified.")) := by
  simp [DynamoAttribute.set_attribute_value, h]

theorem set_attribute_value_immutable_always_fails_witness :
    DynamoAttribute.set_attribute_value
        (DynamoAttribute.AttrState.mk "B" "int" (.int 0) false true
          Option.none (.int 7)) (.int 5) =
      .error (.valueError ("Attribute " ++ sq ++ "B" ++ sq ++
        " is immutable and cannot be modified.")) :=
  set_attribute_value_immutable_always_fails _ rfl (.int 5)

/-- C10: on any non-immutable descriptor, setting the value `None` succeeds
and stores `None`, whatever the declared type tag (even an unsupported one)
and whatever the validator: both checks are skipped for a `None` value. -/
theorem set_attribute_value_none_skips_checks
    (a : DynamoAttribute.AttrState) (h : a.immutable = false) :
    DynamoAttribute.set_attribute_value a .none =
      .ok (DynamoAttribute.AttrState.mk a.name a.type a.default a.required
        a.immutable a.validator .none) := by
  simp [DynamoAttribute.set_attribute_value, h]

theorem set_attribute_value_none_skips_checks_witness :
    DynamoAttribute.set_attribute_value
        (DynamoAttribute.AttrState.mk "C" "no-such-type" (.int 0) true false
          (some (fun _ => false)) (.str "old")) .none =
      .ok (DynamoAttribute.AttrState.mk "C" "no-such-type" (.int 0) true false
        (some (fun _ => false)) .none) :=
  set_attribute_value_none_skips_checks _ rfl

/-- C6, the code evaluated at the failing input: a schema whose single
attribute A carries `required=False` still rejects the record lacking A —
`validate` collects every absent attribute as missing without ever
consulting the required flag (`is_attribute_required` has no caller). -/
theorem validate_rejects_missing_optional_attribute :
    (DynamoAttribute.AttrState.mk "A" "str" (.str "") false false
        Option.none .none).required = false ∧
    DynamoSchema.validate
        [DynamoAttribute.AttrState.mk "A" "str" (.str "") false false
          Option.none .none] [] =
      .error (.valueError "Missing required attributes: A") :=
  ⟨rfl, rfl⟩

/-- C7: `validate` accumulates the names of all absent attributes, all
present attributes of mismatched type, and all present attributes rejected
by their validator (each list characterised by an independent filter
expression); when all three lists are empty it returns `True`, and
otherwise it raises exactly one `DynamoValueError` whose message joins the
three category reports — never a raise at the first violation. -/
theorem validate_aggregates_all_violations
    (attrs : List DynamoAttribute.AttrState) (item : Record) :
    DynamoSchema.validateLists attrs item =
      (DynamoSchema.missingNames attrs item,
       DynamoSchema.mismatchNames attrs item,
       DynamoSchema.failedNames attrs item) ∧
    (DynamoSchema.missingNames attrs item = [] ∧
      DynamoSchema.mismatchNames attrs item = [] ∧
      DynamoSchema.failedNames attrs item = [] →
      DynamoSchema.validate attrs item = .ok true) ∧
    (DynamoSchema.missingNames attrs item ≠ [] ∨
      DynamoSchema.mismatchNames attrs item ≠ [] ∨
      DynamoSchema.failedNames attrs item ≠ [] →
      DynamoSchema.validate attrs item =
        .error (.valueError (String.intercalate "\n"
          (DynamoSchema.error_messages (DynamoSchema.missingNames attrs item)
            (DynamoSchema.mismatchNames attrs item)
            (DynamoSchema.failedNames attrs item))))) := by
  refine ⟨validateLists_eq attrs item, ?_, ?_⟩
  · rintro ⟨h1, h2, h3⟩
    simp [DynamoSchema.validate, validateLists_eq attrs item, h1, h2, h3,
      DynamoSchema.error_messages]
  · intro h
    have hE : DynamoSchema.error_messages (DynamoSchema.missingNames attrs item)
        (DynamoSchema.mismatchNames attrs item)
        (DynamoSchema.failedNames attrs item) ≠ [] := by
      intro e
      rcases (error_messages_nil_iff _ _ _).mp e with ⟨e1, e2, e3⟩
      rcases h with h | h | h
      exacts [h e1, h e2, h e3]
    cases hc : DynamoSchema.error_messages (DynamoSchema.missingNames attrs item)
        (DynamoSchema.mismatchNames attrs item)
        (DynamoSchema.failedNames attrs item) with
    | nil => exact absurd hc hE
    | cons x xs =>
        simp [DynamoSchema.validate, validateLists_eq attrs item, hc]

/-- The head attribute of the C7 witness schema: required but absent. -/
def c7attrA : DynamoAttribute.AttrState :=
  DynamoAttribute.AttrState.mk "A" "str" (.str "") true false Option.none .none

/-- Second attribute of the C7 witness schema: present with the wrong
type. -/
def c7attrB : DynamoAttribute.AttrState :=
  DynamoAttribute.AttrState.mk "B" "int" (.int 0) false false Option.none .none

/-- Third attribute of the C7 witness schema: present but rejected by its
validator. -/
def c7attrC : DynamoAttribute.AttrState :=
  DynamoAttribute.AttrState.mk "C" "str" (.str "") false false
    (some (fun v => match v with | .str s => s == "ok" | _ => false)) .none

/-- The C7 witness record: A missing, B a string where an int is declared,
C failing its validator. -/
def c7item : Record := [("B", .str "not-an-int"), ("C", .str "bad")]

theorem validate_aggregates_all_violations_witness :
    DynamoSchema.validate [c7attrA, c7attrB, c7attrC] c7item =
      .error (.valueError ("Missing required attributes: A\n" ++
        "Type mismatch for attributes: B\n" ++
        "Validation failed for attributes: C")) ∧
    DynamoSchema.validate [] [] = .ok true := by
  constructor
  · have h := (validate_aggregates_all_violations [c7attrA, c7attrB, c7attrC]
      c7item).2.2 (Or.inl (by decide))
    exact h.trans (by rfl)
  · exact (validate_aggregates_all_violations [] []).2.1 ⟨rfl, rfl, rfl⟩

/-- C8 counterexample: at a construction-time clock whose local-time and
UTC renderings differ (session timezone UTC+05:30), the undefaulted
timestamp descriptor receives the string produced by `datetime.now()` —
the local time — which is not the current UTC time string the claim
names. -/
theorem timestamp_default_is_local_not_utc :
    DynamoAttribute.init "ts" "datetime" .none false false Option.none clk0 =
      .ok (DynamoAttribute.AttrState.mk "ts" "datetime"
        (.str "2024-01-01 05:30:00") false false Option.none .none) ∧
    ("2024-01-01 05:30:00" : String) ≠
      TimeUtills.get_current_utc_datetime clk0 :=
  ⟨rfl, by decide⟩

/-- C8 (amended): a timestamp descriptor constructed with no supplied
default resolves it to the current **local** time string
(`datetime.now().strftime("%Y-%m-%d %H:%M:%S")`, not UTC), an identifier
descriptor to a freshly generated uuid4 string, each computed once at
construction; later reads — `get_attribute_default`, and `fill_defaults`
inserting the default — return that stored construction-time value, taking
no clock at all. -/
theorem dynamic_defaults_generated_once (clk : Clock) (name : String)
    (req imm : Bool) :
    DynamoAttribute.init name "datetime" .none req imm Option.none clk =
      .ok (DynamoAttribute.AttrState.mk name "datetime" (.str clk.localNow)
        req imm Option.none .none) ∧
    DynamoAttribute.init name "uuid" .none req imm Option.none clk =
      .ok (DynamoAttribute.AttrState.mk name "uuid" (.str clk.uuid4)
        req imm Option.none .none) ∧
    (∀ (a : DynamoAttribute.AttrState) (item : Record),
      DynamoAttribute.init name "datetime" .none req imm Option.none clk =
        .ok a →
      getAttr item name = Option.none →
      getAttr (DynamoSchema.fill_defaults [a] item) name =
        some (.str clk.localNow)) := by
  refine ⟨rfl, rfl, ?_⟩
  intro a item ha hitem
  have h2 : Except.ok (ε := DynErr) a =
      .ok (DynamoAttribute.AttrState.mk name "datetime" (.str clk.localNow)
        req imm Option.none .none) := ha.symm.trans rfl
  injection h2 with h3
  subst h3
  simp only [DynamoSchema.fill_defaults]
  rw [if_neg (by simp [hitem])]
  exact getAttr_setItem_self item name (.str clk.localNow)

theorem dynamic_defaults_generated_once_witness :
    DynamoAttribute.init "ts" "datetime" .none false false Option.none clk0 =
      .ok (DynamoAttribute.AttrState.mk "ts" "datetime"
        (.str clk0.localNow) false false Option.none .none) ∧
    getAttr (DynamoSchema.fill_defaults
        [DynamoAttribute.AttrState.mk "ts" "datetime" (.str clk0.localNow)
          false false Option.none .none] [("other", .int 1)]) "ts" =
      some (.str clk0.localNow) := by
  constructor
  · exact (dynamic_defaults_generated_once clk0 "ts" false false).1
  · exact (dynamic_defaults_generated_once clk0 "ts" false false).2.2
      (DynamoAttribute.AttrState.mk "ts" "datetime" (.str clk0.localNow)
        false false Option.none .none) [("other", .int 1)] rfl rfl

/-- A concrete transactional table with default version and update-time
attribute names, used by concrete witnesses. -/
def c4tbl : DynamoTable :=
  DynamoTable.mk "T" "pk" Option.none "lockVersion" true (some "last_update")

/-- C4: `update_version` sets exactly the version attribute of the stored
record to the supplied value — every other attribute keeps its value — and
returns the updated attributes (per `UPDATED_NEW`, just the version) on a
200 engine status, `None` otherwise. -/
theorem update_version_frame (tbl : DynamoTable) (stored : Record)
    (nv : PyVal) (status : Nat) :
    getAttr (DynamoTable.update_version tbl stored nv status).1
        tbl.version_attribute = some nv ∧
    (∀ k, k ≠ tbl.version_attribute →
      getAttr (DynamoTable.update_version tbl stored nv status).1 k =
        getAttr stored k) ∧
    (status = 200 →
      (DynamoTable.update_version tbl stored nv status).2 =
        some [(tbl.version_attribute, nv)]) ∧
    (status ≠ 200 →
      (DynamoTable.update_version tbl stored nv status).2 = Option.none) := by
  refine ⟨?_, ?_, ?_, ?_⟩
  · exact getAttr_setItem_self stored tbl.version_attribute nv
  · intro k hk
    exact getAttr_setItem_ne stored tbl.version_attribute k nv hk
  · intro h
    simp [DynamoTable.update_version, h]
  · intro h
    simp [DynamoTable.update_version, h]

theorem update_version_frame_witness :
    getAttr (DynamoTable.update_version c4tbl
        [("pk", PyVal.str "p"), ("lockVersion", PyVal.int 3),
         ("x", PyVal.int 7)] (PyVal.int 9) 200).1 "lockVersion" =
      some (PyVal.int 9) ∧
    getAttr (DynamoTable.update_version c4tbl
        [("pk", PyVal.str "p"), ("lockVersion", PyVal.int 3),
         ("x", PyVal.int 7)] (PyVal.int 9) 200).1 "x" =
      getAttr [("pk", PyVal.str "p"), ("lockVersion", PyVal.int 3),
        ("x", PyVal.int 7)] "x" ∧
    (DynamoTable.update_version c4tbl
        [("pk", PyVal.str "p"), ("lockVersion", PyVal.int 3),
         ("x", PyVal.int 7)] (PyVal.int 9) 200).2 =
      some [("lockVersion", PyVal.int 9)] ∧
    (DynamoTable.update_version c4tbl
        [("pk", PyVal.str "p"), ("lockVersion", PyVal.int 3),
         ("x", PyVal.int 7)] (PyVal.int 9) 500).2 = Option.none := by
  refine ⟨(update_version_frame c4tbl _ _ _).1,
    (update_version_frame c4tbl _ _ _).2.1 "x" (by decide),
    (update_version_frame c4tbl _ _ _).2.2.1 rfl,
    (update_version_frame c4tbl _ _ 500).2.2.2 (by decide)⟩

/-- C3: on a transactional table `save` stamps version 0 onto a record that
carries no version attribute, and replaces a present integer version `v` by
exactly `v + 1`; consequently the `N`-th save of a round-tripped record
carries version `N - 1`, a non-negative integer that increases by one per
save. -/
theorem save_version_monotone (tbl : DynamoTable) (clk : Clock)
    (item : Record) (htr : tbl.is_transactional = true)
    (hla : ∀ la, tbl.last_update_attribute = some la →
      la ≠ tbl.version_attribute)
    (hv0 : getAttr item tbl.version_attribute = Option.none) :
    (∃ r1, (DynamoTable.save tbl Option.none clk 200 item).result = .ok r1 ∧
      getAttr r1 tbl.version_attribute = some (.int 0)) ∧
    (∀ (r : Record) (v : Int),
      getAttr r tbl.version_attribute = some (.int v) →
      ∃ r', (DynamoTable.save tbl Option.none clk 200 r).result = .ok r' ∧
        getAttr r' tbl.version_attribute = some (.int (v + 1))) ∧
    (∀ N : Nat, 1 ≤ N →
      ∃ r, DynamoTable.savesFrom tbl Option.none clk 200 item N = .ok r ∧
        getAttr r tbl.version_attribute = some (.int ((N : Int) - 1)) ∧
        0 ≤ (N : Int) - 1) := by
  have key : ∀ N : Nat, ∃ r,
      DynamoTable.savesFrom tbl Option.none clk 200 item (N + 1) = .ok r ∧
      getAttr r tbl.version_attribute = some (.int N) := by
    intro N
    induction N with
    | zero =>
        obtain ⟨r1, hr1, hv1⟩ := save_result_version_zero tbl clk item htr hla hv0
        refine ⟨r1, ?_, by exact_mod_cast hv1⟩
        simp [DynamoTable.savesFrom, hr1]
    | succ n ih =>
        obtain ⟨r, hr, hver⟩ := ih
        obtain ⟨r', hr', hv'⟩ :=
          save_result_version_succ tbl clk r n htr hla hver
        refine ⟨r', ?_, by exact_mod_cast hv'⟩
        show (match DynamoTable.savesFrom tbl Option.none clk 200 item (n + 1)
            with
          | Except.ok r => (DynamoTable.save tbl Option.none clk 200 r).result
          | Except.error e => Except.error e) = Except.ok r'
        rw [hr]
        exact hr'
  refine ⟨save_result_version_zero tbl clk item htr hla hv0, ?_, ?_⟩
  · intro r v hv
    exact save_result_version_succ tbl clk r v htr hla hv
  · intro N hN
    obtain ⟨M, rfl⟩ : ∃ M, N = M + 1 := ⟨N - 1, by omega⟩
    obtain ⟨r, hr, hver⟩ := key M
    refine ⟨r, hr, ?_, by push_cast; omega⟩
    have hc : ((M + 1 : Nat) : Int) - 1 = (M : Int) := by push_cast; ring
    rw [hc]
    exact hver

theorem save_version_monotone_witness :
    (∃ r1, (DynamoTable.save c4tbl Option.none clk0 200
        [("pk", PyVal.str "p")]).result = .ok r1 ∧
      getAttr r1 c4tbl.version_attribute = some (.int 0)) ∧
    (∃ r', (DynamoTable.save c4tbl Option.none clk0 200
        [("lockVersion", PyVal.int 41)]).result = .ok r' ∧
      getAttr r' c4tbl.version_attribute = some (.int (41 + 1))) ∧
    (∃ r, DynamoTable.savesFrom c4tbl Option.none clk0 200
        [("pk", PyVal.str "p")] 3 = .ok r ∧
      getAttr r c4tbl.version_attribute = some (.int ((3 : Int) - 1)) ∧
      0 ≤ (3 : Int) - 1) := by
  have h := save_version_monotone c4tbl clk0 [("pk", PyVal.str "p")] rfl
    (fun la h2 => by
      simp only [c4tbl] at h2
      injection h2 with h3
      rw [← h3]
      decide) rfl
  exact ⟨h.1, h.2.1 [("lockVersion", PyVal.int 41)] 41 rfl, h.2.2 3 (by omega)⟩

/-- C9: when a registered schema rejects the stamped record, `save` raises
without ever issuing the engine put, but the caller's dict has already been
mutated in place: the version attribute is stamped (0 when absent, `v + 1`
when present, on a transactional table), the update-time attribute is
stamped with the current UTC time, and every schema attribute missing from
the record has been filled with its default. -/
theorem save_mutates_item_despite_validation_failure (tbl : DynamoTable)
    (attrs : List DynamoAttribute.AttrState) (clk : Clock) (status : Nat)
    (item item1 : Record) (la : String) (e : DynErr)
    (hst : DynamoTable.stamp_version tbl item = .ok item1)
    (hla : tbl.last_update_attribute = some la)
    (hne : la ≠ tbl.version_attribute)
    (hval : DynamoSchema.validate attrs
        (DynamoSchema.fill_defaults attrs
          (setItem item1 la (.str clk.utcNow))) = .error e) :
    DynamoTable.save tbl (some attrs) clk status item =
      DynamoTable.SaveOutcome.mk
        (DynamoSchema.fill_defaults attrs (setItem item1 la (.str clk.utcNow)))
        false (.error e) ∧
    (tbl.is_transactional = true →
      getAttr item tbl.version_attribute = Option.none →
      getAttr (DynamoSchema.fill_defaults attrs
          (setItem item1 la (.str clk.utcNow))) tbl.version_attribute =
        some (.int 0)) ∧
    (∀ v : Int, tbl.is_transactional = true →
      getAttr item tbl.version_attribute = some (.int v) →
      getAttr (DynamoSchema.fill_defaults attrs
          (setItem item1 la (.str clk.utcNow))) tbl.version_attribute =
        some (.int (v + 1))) ∧
    getAttr (DynamoSchema.fill_defaults attrs
        (setItem item1 la (.str clk.utcNow))) la = some (.str clk.utcNow) ∧
    ∀ a ∈ attrs, (getAttr (DynamoSchema.fill_defaults attrs
        (setItem item1 la (.str clk.utcNow))) a.name).isSome := by
  refine ⟨?_, ?_, ?_, ?_, ?_⟩
  · simp only [DynamoTable.save, hst, hla]
    simp [hval, TimeUtills.get_current_utc_datetime]
  · intro htr2 hv2
    have h1 : DynamoTable.stamp_version tbl item =
        .ok (setItem item tbl.version_attribute (.int 0)) := by
      simp [DynamoTable.stamp_version, htr2, hv2]
    have h2 := hst.symm.trans h1
    injection h2 with h3
    subst h3
    have hpres : getAttr (setItem (setItem item tbl.version_attribute
        (.int 0)) la (.str clk.utcNow)) tbl.version_attribute =
        some (.int 0) := by
      rw [getAttr_setItem_ne _ la _ _ (Ne.symm hne)]
      exact getAttr_setItem_self item tbl.version_attribute (.int 0)
    rw [getAttr_fill_defaults_of_isSome attrs _ _ (by rw [hpres]; rfl)]
    exact hpres
  · intro v htr2 hv2
    have h1 : DynamoTable.stamp_version tbl item =
        .ok (setItem item tbl.version_attribute (.int (v + 1))) := by
      simp only [DynamoTable.stamp_version, htr2, hv2, if_true]
      rfl
    have h2 := hst.symm.trans h1
    injection h2 with h3
    subst h3
    have hpres : getAttr (setItem (setItem item tbl.version_attribute
        (.int (v + 1))) la (.str clk.utcNow)) tbl.version_attribute =
        some (.int (v + 1)) := by
      rw [getAttr_setItem_ne _ la _ _ (Ne.symm hne)]
      exact getAttr_setItem_self item tbl.version_attribute (.int (v + 1))
    rw [getAttr_fill_defaults_of_isSome attrs _ _ (by rw [hpres]; rfl)]
    exact hpres
  · have hla2 : getAttr (setItem item1 la (.str clk.utcNow)) la =
        some (.str clk.utcNow) :=
      getAttr_setItem_self item1 la (.str clk.utcNow)
    rw [getAttr_fill_defaults_of_isSome attrs _ _ (by rw [hla2]; rfl)]
    exact hla2
  · intro a ha
    exact getAttr_fill_defaults_isSome_of_mem attrs _ a ha

/-- The single attribute of the C9 witness schema: its default empty string
is rejected by its own validator, so the stamped-and-defaulted record fails
validation. -/
def c9attr : DynamoAttribute.AttrState :=
  DynamoAttribute.AttrState.mk "Name" "str" (.str "") true false
    (some (fun v => match v with | .str s => s != "" | _ => false)) .none

/-- The C9 witness record before saving: a bare primary key, no version. -/
def c9item : Record := [("pk", PyVal.str "p")]

/-- The C9 witness record as `stamp_version` leaves it. -/
def c9item1 : Record := [("pk", PyVal.str "p"), ("lockVersion", PyVal.int 0)]

/-- The C9 witness record as `save` leaves the caller's dict: version and
update-time stamped, defaults filled. -/
def c9stamped : Record :=
  DynamoSchema.fill_defaults [c9attr]
    (setItem c9item1 "last_update" (.str clk0.utcNow))

/-- A second C9 witness record that already carries version 5. -/
def c9item2 : Record := [("pk", PyVal.str "p"), ("lockVersion", PyVal.int 5)]

theorem save_mutates_item_despite_validation_failure_witness :
    DynamoTable.save c4tbl (some [c9attr]) clk0 200 c9item =
      DynamoTable.SaveOutcome.mk c9stamped false
        (.error (.valueError "Validation failed for attributes: Name")) ∧
    getAttr c9stamped c4tbl.version_attribute = some (.int 0) ∧
    getAttr c9stamped "last_update" = some (.str clk0.utcNow) ∧
    (getAttr c9stamped c9attr.name).isSome = true ∧
    getAttr (DynamoSchema.fill_defaults [c9attr]
        (setItem (setItem c9item2 "lockVersion" (PyVal.int 6)) "last_update"
          (.str clk0.utcNow))) c4tbl.version_attribute =
      some (.int (5 + 1)) := by
  have h1 := save_mutates_item_despite_validation_failure c4tbl [c9attr] clk0
    200 c9item c9item1 "last_update"
    (.valueError "Validation failed for attributes: Name") rfl rfl (by decide)
    rfl
  have h2 := save_mutates_item_despite_validation_failure c4tbl [c9attr] clk0
    200 c9item2 (setItem c9item2 "lockVersion" (PyVal.int 6)) "last_update"
    (.valueError "Validation failed for attributes: Name") rfl rfl (by decide)
    rfl
  exact ⟨h1.1, h1.2.1 rfl rfl, h1.2.2.2.1,
    h1.2.2.2.2 c9attr (List.mem_cons_self _ _), h2.2.2.1 5 rfl rfl⟩

end DynaBridge
